import Mathlib

/-!
Verification development for the `vercel-mcp-python` repository.

The repository contains two dispatchers for MCP (Model Context Protocol)
requests:

* `MCPServer.handle_request` in `src/mcp_server.py`: a class with a registry
  (`self.tools`, `self.resources`) built in `__init__`, a top-level
  `try/except` boundary converting any exception to a `-32603` error
  response, and a `try/except FileNotFoundError` around the CSV reads of
  the data-backed tools.

* `handle_mcp_request` in `api/index.py`: a plain function with inline tool
  descriptor literals, NO top-level `try/except`, and NO catch around the
  file reads of the data-backed tools (a missing file raises
  `FileNotFoundError` across the function boundary; only the HTTP transport
  `do_POST` catches it).

The embedding models decoded JSON/Python values as the mutual inductive
`PyVal`/`PyList`/`PyFields` (JSON numbers are modelled as integers only; no
claim depends on float formatting; objects are insertion-ordered field
sequences as Python dicts are), Python exceptions as the type `PyExn`
threaded through `Except`, and the external collaborators
(`pandas.read_csv` + stringify, `open(...).read()`,
`datetime.now().isoformat()`) as an explicit environment `Env`, since they
are I/O performed by libraries outside the repository.
-/

mutual

/-- A decoded JSON value as Python represents it after `json.loads`:
`null`→`None`, booleans, integers, strings, arrays→lists, objects→dicts. -/
inductive PyVal where
  | none : PyVal
  | bool : Bool → PyVal
  | int : Int → PyVal
  | str : String → PyVal
  | list : PyList → PyVal
  | dict : PyFields → PyVal
deriving DecidableEq

/-- The elements of a decoded JSON array. -/
inductive PyList where
  | nil : PyList
  | cons : PyVal → PyList → PyList
deriving DecidableEq

/-- The insertion-ordered fields of a decoded JSON object / Python dict. -/
inductive PyFields where
  | nil : PyFields
  | cons : String → PyVal → PyFields → PyFields
deriving DecidableEq

end

/-- Build a `PyList` from a Lean list. -/
def listOf : List PyVal → PyList
  | [] => .nil
  | x :: xs => .cons x (listOf xs)

/-- Build `PyFields` from a Lean association list. -/
def fieldsOf : List (String × PyVal) → PyFields
  | [] => .nil
  | (k, v) :: kvs => .cons k v (fieldsOf kvs)

/-- A decoded JSON object: what both dispatchers receive as their request
argument (typed `Dict[str, Any]` in the source). -/
abbrev PyDict := PyFields

/-- Dict lookup (first match; Python dicts have unique keys). -/
def PyFields.lookup : PyFields → String → Option PyVal
  | .nil, _ => Option.none
  | .cons k v rest, key => if k = key then Option.some v else rest.lookup key

/-- `list(d.values())`: the values in insertion order. -/
def PyFields.values : PyFields → PyList
  | .nil => .nil
  | .cons _ v rest => .cons v rest.values

/-- The keys of a dict in insertion order. -/
def PyFields.keys : PyFields → List String
  | .nil => []
  | .cons k _ rest => k :: rest.keys

/-- A Python exception value.  `FileNotFoundError` and `AttributeError` are
distinguished because `mcp_server.py` catches `FileNotFoundError`
specifically; every exception carries its `str(e)` message. -/
inductive PyExn where
  | fileNotFound : String → PyExn
  | attributeError : String → PyExn
  | other : String → PyExn
deriving DecidableEq

/-- `str(e)` of an exception. -/
def PyExn.msg : PyExn → String
  | .fileNotFound m => m
  | .attributeError m => m
  | .other m => m

/-- Whether `except FileNotFoundError` would catch this exception. -/
def PyExn.isFileNotFound : PyExn → Bool
  | .fileNotFound _ => true
  | _ => false

/-- A single-quote character, used when rendering Python `repr`/messages. -/
def pyQuote : Char := Char.ofNat 39

/-- Python type name of a value, as it appears in `AttributeError` text. -/
def PyVal.typeName : PyVal → String
  | .none => "NoneType"
  | .bool _ => "bool"
  | .int _ => "int"
  | .str _ => "str"
  | .list _ => "list"
  | .dict _ => "dict"

/-- The message of the `AttributeError` raised by `v.get(...)` when `v` is
not a dict, e.g. `'str' object has no attribute 'get'`. -/
def attrGetMsg (v : PyVal) : String :=
  String.singleton pyQuote ++ v.typeName ++ String.singleton pyQuote ++
    " object has no attribute " ++
    String.singleton pyQuote ++ "get" ++ String.singleton pyQuote

/-- `d.get(k)` on a genuine dict: the value, or `None` when absent. -/
def pyDictGet (d : PyDict) (k : String) : PyVal :=
  (d.lookup k).getD .none

/-- `d.get(k, default)` on a genuine dict. -/
def pyDictGetD (d : PyDict) (k : String) (dflt : PyVal) : PyVal :=
  (d.lookup k).getD dflt

/-- `v.get(k)` where `v` is an arbitrary value: raises `AttributeError`
when `v` is not a dict (e.g. when a request's `params` is a string). -/
def pyGet (v : PyVal) (k : String) : Except PyExn PyVal :=
  match v with
  | .dict kvs => .ok (pyDictGet kvs k)
  | v => .error (.attributeError (attrGetMsg v))

/-- `v.get(k, default)` where `v` is an arbitrary value. -/
def pyGetD (v : PyVal) (k : String) (dflt : PyVal) : Except PyExn PyVal :=
  match v with
  | .dict kvs => .ok (pyDictGetD kvs k dflt)
  | v => .error (.attributeError (attrGetMsg v))

/-- Python `repr` of one character inside a string literal.
(Python switches the surrounding quotes to double quotes when the string
contains a single quote and no double quote, and escapes non-printable
codepoints as `\xNN`; both refinements only affect diagnostic text for
exotic inputs and are elided.) -/
def pyReprChar (c : Char) : String :=
  if c = '\\' then "\\\\"
  else if c = pyQuote then "\\" ++ String.singleton pyQuote
  else if c = '\n' then "\\n"
  else if c = '\r' then "\\r"
  else if c = '\t' then "\\t"
  else String.singleton c

/-- Python `repr` of a string literal body. -/
def pyStrReprBody (s : List Char) : String :=
  match s with
  | [] => ""
  | c :: cs => pyReprChar c ++ pyStrReprBody cs

/-- Python `repr` of a string. -/
def pyStrRepr (s : String) : String :=
  String.singleton pyQuote ++ pyStrReprBody s.toList ++ String.singleton pyQuote

mutual

/-- Python `repr(v)` for a decoded JSON value. -/
def pyRepr : PyVal → String
  | .none => "None"
  | .bool true => "True"
  | .bool false => "False"
  | .int n => toString n
  | .str s => pyStrRepr s
  | .list xs => "[" ++ pyReprItems xs ++ "]"
  | .dict kvs => "\x7b" ++ pyReprPairs kvs ++ "\x7d"

def pyReprItems : PyList → String
  | .nil => ""
  | .cons x .nil => pyRepr x
  | .cons x (.cons y ys) => pyRepr x ++ ", " ++ pyReprItems (.cons y ys)

def pyReprPairs : PyFields → String
  | .nil => ""
  | .cons k v .nil => pyStrRepr k ++ ": " ++ pyRepr v
  | .cons k v (.cons k2 v2 ys) =>
      pyStrRepr k ++ ": " ++ pyRepr v ++ ", " ++ pyReprPairs (.cons k2 v2 ys)

end

/-- Python `str(v)` (= what an f-string interpolation produces) for a
decoded JSON value: strings verbatim, everything else as `repr`. -/
def pyFStr : PyVal → String
  | .str s => s
  | v => pyRepr v

/-! ## `json.dumps(..., indent=2)`

Python's `json.dumps` with `indent=2` puts each array item / object member
on its own line, indented two more spaces than its container, with
separators `(",", ": ")`.  Only the escapes that can occur in the values
this repository serializes are modelled. -/

/-- `n` spaces. -/
def indentStr (n : Nat) : String :=
  String.mk (List.replicate n ' ')

/-- JSON string escaping as `json.dumps` performs it (backslash, double
quote, and the common control characters; other control characters do not
occur in the serialized values of this repository). -/
def jsonQuoteChar (c : Char) : String :=
  if c = '\\' then "\\\\"
  else if c = '"' then "\\\""
  else if c = '\n' then "\\n"
  else if c = '\r' then "\\r"
  else if c = '\t' then "\\t"
  else String.singleton c

def jsonQuoteBody : List Char → String
  | [] => ""
  | c :: cs => jsonQuoteChar c ++ jsonQuoteBody cs

/-- A JSON string literal. -/
def jsonQuote (s : String) : String :=
  "\"" ++ jsonQuoteBody s.toList ++ "\""

mutual

/-- `json.dumps(v, indent=2)` at enclosing indentation `ind`. -/
def jsonDumpsVal (ind : Nat) : PyVal → String
  | .none => "null"
  | .bool true => "true"
  | .bool false => "false"
  | .int n => toString n
  | .str s => jsonQuote s
  | .list .nil => "[]"
  | .list (.cons x xs) =>
      "[\n" ++ jsonDumpsItems (ind + 2) (.cons x xs) ++ "\n" ++ indentStr ind ++ "]"
  | .dict .nil => "\x7b\x7d"
  | .dict (.cons k v kvs) =>
      "\x7b\n" ++ jsonDumpsPairs (ind + 2) (.cons k v kvs) ++ "\n" ++
        indentStr ind ++ "\x7d"

/-- One array item per line (the empty list never reaches here; it is
rendered `[]` above). -/
def jsonDumpsItems (ind : Nat) : PyList → String
  | .nil => ""
  | .cons x .nil => indentStr ind ++ jsonDumpsVal ind x
  | .cons x (.cons y ys) =>
      indentStr ind ++ jsonDumpsVal ind x ++ ",\n" ++
        jsonDumpsItems ind (.cons y ys)

/-- One object member per line (the empty dict never reaches here). -/
def jsonDumpsPairs (ind : Nat) : PyFields → String
  | .nil => ""
  | .cons k v .nil => indentStr ind ++ jsonQuote k ++ ": " ++ jsonDumpsVal ind v
  | .cons k v (.cons k2 v2 ys) =>
      indentStr ind ++ jsonQuote k ++ ": " ++ jsonDumpsVal ind v ++ ",\n" ++
        jsonDumpsPairs ind (.cons k2 v2 ys)

end

/-- `json.dumps(v, indent=2)`. -/
def jsonDumps (v : PyVal) : String :=
  jsonDumpsVal 0 v

/-! ## A small JSON reader

Used only to state that serialized text "parses back" to the value it came
from (claim about the `config://server` resource).  Fuel-based recursive
descent over the character list; handles the constructs `json.dumps` can
emit for the values of this repository (strings, arrays, objects, `null`,
booleans and integers; no floats, no `\u` escapes). -/

def skipWs : List Char → List Char
  | c :: cs =>
      if c = ' ' ∨ c = '\n' ∨ c = '\t' ∨ c = '\r' then skipWs cs else c :: cs
  | [] => []

/-- Read a JSON string body up to the closing quote, undoing escapes. -/
def readJsonStringBody : List Char → Option (String × List Char)
  | [] => Option.none
  | c :: cs =>
      if c = '"' then Option.some ("", cs)
      else if c = '\\' then
        match cs with
        | [] => Option.none
        | e :: cs2 =>
            let dec : Option Char :=
              if e = '"' then Option.some '"'
              else if e = '\\' then Option.some '\\'
              else if e = '/' then Option.some '/'
              else if e = 'n' then Option.some '\n'
              else if e = 'r' then Option.some '\r'
              else if e = 't' then Option.some '\t'
              else Option.none
            match dec with
            | Option.some d =>
                match readJsonStringBody cs2 with
                | Option.some (rest, left) =>
                    Option.some (String.singleton d ++ rest, left)
                | Option.none => Option.none
            | Option.none => Option.none
      else
        match readJsonStringBody cs with
        | Option.some (rest, left) => Option.some (String.singleton c ++ rest, left)
        | Option.none => Option.none

/-- Read a run of decimal digits as a natural number. -/
def readDigits (acc : Nat) (sawOne : Bool) :
    List Char → Option (Nat × List Char)
  | [] => if sawOne then Option.some (acc, []) else Option.none
  | c :: cs =>
      if c.isDigit then readDigits (acc * 10 + (c.toNat - 48)) true cs
      else if sawOne then Option.some (acc, c :: cs) else Option.none

mutual

/-- Read one JSON value. -/
def readJsonVal : Nat → List Char → Option (PyVal × List Char)
  | 0, _ => Option.none
  | fuel + 1, input =>
      match skipWs input with
      | [] => Option.none
      | c :: cs =>
          if c = '"' then
            match readJsonStringBody cs with
            | Option.some (s, left) => Option.some (.str s, left)
            | Option.none => Option.none
          else if c = Char.ofNat 91 then  -- [
            match skipWs cs with
            | c2 :: cs2 =>
                if c2 = Char.ofNat 93 then Option.some (.list .nil, cs2)  -- ]
                else
                  match readJsonItems fuel (c2 :: cs2) with
                  | Option.some (xs, left) => Option.some (.list xs, left)
                  | Option.none => Option.none
            | [] => Option.none
          else if c = Char.ofNat 123 then  -- opening brace
            match skipWs cs with
            | c2 :: cs2 =>
                if c2 = Char.ofNat 125 then Option.some (.dict .nil, cs2)  -- closing brace
                else
                  match readJsonPairs fuel (c2 :: cs2) with
                  | Option.some (kvs, left) => Option.some (.dict kvs, left)
                  | Option.none => Option.none
            | [] => Option.none
          else if c = 'n' then
            match cs with
            | 'u' :: 'l' :: 'l' :: left => Option.some (.none, left)
            | _ => Option.none
          else if c = 't' then
            match cs with
            | 'r' :: 'u' :: 'e' :: left => Option.some (.bool true, left)
            | _ => Option.none
          else if c = 'f' then
            match cs with
            | 'a' :: 'l' :: 's' :: 'e' :: left => Option.some (.bool false, left)
            | _ => Option.none
          else if c = '-' then
            match readDigits 0 false cs with
            | Option.some (n, left) => Option.some (.int (-(n : Int)), left)
            | Option.none => Option.none
          else if c.isDigit then
            match readDigits 0 false (c :: cs) with
            | Option.some (n, left) => Option.some (.int (n : Int), left)
            | Option.none => Option.none
          else Option.none

/-- Read comma-separated array items up to the closing bracket. -/
def readJsonItems : Nat → List Char → Option (PyList × List Char)
  | 0, _ => Option.none
  | fuel + 1, input =>
      match readJsonVal fuel input with
      | Option.some (x, left) =>
          match skipWs left with
          | c :: cs =>
              if c = ',' then
                match readJsonItems fuel cs with
                | Option.some (xs, left2) => Option.some (.cons x xs, left2)
                | Option.none => Option.none
              else if c = Char.ofNat 93 then Option.some (.cons x .nil, cs)  -- ]
              else Option.none
          | [] => Option.none
      | Option.none => Option.none

/-- Read comma-separated object members up to the closing brace. -/
def readJsonPairs : Nat → List Char → Option (PyFields × List Char)
  | 0, _ => Option.none
  | fuel + 1, input =>
      match skipWs input with
      | c :: cs =>
          if c = '"' then
            match readJsonStringBody cs with
            | Option.some (k, left) =>
                match skipWs left with
                | c2 :: cs2 =>
                    if c2 = ':' then
                      match readJsonVal fuel cs2 with
                      | Option.some (v, left2) =>
                          match skipWs left2 with
                          | c3 :: cs3 =>
                              if c3 = ',' then
                                match readJsonPairs fuel cs3 with
                                | Option.some (kvs, left3) =>
                                    Option.some (.cons k v kvs, left3)
                                | Option.none => Option.none
                              else if c3 = Char.ofNat 125 then  -- closing brace
                                Option.some (.cons k v .nil, cs3)
                              else Option.none
                          | [] => Option.none
                      | Option.none => Option.none
                    else Option.none
                | [] => Option.none
            | Option.none => Option.none
          else Option.none
      | [] => Option.none

end

/-- Parse a complete JSON document (must consume all input). -/
def parseJsonText (s : String) : Option PyVal :=
  match readJsonVal (s.length + 1) s.toList with
  | Option.some (v, left) =>
      match skipWs left with
      | [] => Option.some v
      | _ :: _ => Option.none
  | Option.none => Option.none

/-! ## External collaborators

`pandas.read_csv` + `str(df.to_dict(orient=..))`, `open(..).read()` and
`datetime.datetime.now().isoformat()` are library I/O outside the
repository's code; they enter the embedding as an explicit environment.
Each file operation either yields the resulting string or raises some
Python exception (`.fileNotFound` when the file is absent). -/

structure Env where
  /-- `datetime.datetime.now().isoformat()`. -/
  now : String
  /-- `str(pd.read_csv(path).to_dict(orient="records"))`: the stringified
  records of the CSV at `path`, or the exception the read raises
  (`FileNotFoundError` when the file is absent). -/
  readCsvStr : String → Except PyExn String
  /-- `open(path, "r", encoding="utf-8").read()`: the text of the file at
  `path`, or the exception the open raises. -/
  openRead : String → Except PyExn String

/-! ## Response shaping (`src/mcp_server.py` and `api/index.py`)

Success responses are built inline in every handler as
`{"jsonrpc": "2.0", "id": request.get("id"), "result": ...}`; error
responses as `{"jsonrpc": "2.0", "error": {"code": .., "message": ..}}`
(via `_create_error_response` in `mcp_server.py`, inline in `index.py`).
Note the error shape carries NO `id` key. -/

/-- `{"jsonrpc": "2.0", "id": <id>, "result": <result>}`. -/
def mkSuccess (id result : PyVal) : PyVal :=
  .dict (fieldsOf [("jsonrpc", .str "2.0"), ("id", id), ("result", result)])

/-- `MCPServer._create_error_response` (and the identical inline error
dicts of `api/index.py`):
`{"jsonrpc": "2.0", "error": {"code": code, "message": message}}`. -/
def createErrorResponse (code : Int) (message : String) : PyVal :=
  .dict (fieldsOf [("jsonrpc", .str "2.0"),
    ("error", .dict (fieldsOf [("code", .int code), ("message", .str message)]))])

/-- The `{"content": [{"type": "text", "text": str(result)}]}` wrapper
built by both `tools/call` handlers. -/
def toolCallResult (result : String) : PyVal :=
  .dict (fieldsOf [("content",
    .list (listOf [.dict (fieldsOf [("type", .str "text"), ("text", .str result)])]))])

/-! ## Tool and resource descriptors

The same four descriptor literals appear in `MCPServer.__init__`
(`src/mcp_server.py`) and inline under `tools/list` in `api/index.py`;
character-identical in both files, so defined once here. -/

def echoTool : PyVal :=
  .dict (fieldsOf [
    ("name", .str "echo"),
    ("description", .str "Echo the provided message back to the user"),
    ("inputSchema", .dict (fieldsOf [
      ("type", .str "object"),
      ("properties", .dict (fieldsOf [
        ("message", .dict (fieldsOf [
          ("type", .str "string"),
          ("description", .str "The message to echo back")]))])),
      ("required", .list (listOf [.str "message"]))]))])

def getTimeTool : PyVal :=
  .dict (fieldsOf [
    ("name", .str "get_time"),
    ("description", .str "Get the current server time"),
    ("inputSchema", .dict (fieldsOf [
      ("type", .str "object"),
      ("properties", .dict .nil)]))])

def getSMMSMasterlistTool : PyVal :=
  .dict (fieldsOf [
    ("name", .str "get_SMMSMasterlist"),
    ("description", .str "Get the Monday SMMS Masterlist board data"),
    ("inputSchema", .dict (fieldsOf [
      ("type", .str "object"),
      ("properties", .dict .nil)]))])

def getWebinarAttendeesTool : PyVal :=
  .dict (fieldsOf [
    ("name", .str "get_webinarAttendees"),
    ("description", .str "Get the Monday webinar attendees board data"),
    ("inputSchema", .dict (fieldsOf [
      ("type", .str "object"),
      ("properties", .dict .nil)]))])

def serverConfigResource : PyVal :=
  .dict (fieldsOf [
    ("uri", .str "config://server"),
    ("name", .str "Server Configuration"),
    ("description", .str "Server configuration information"),
    ("mimeType", .str "application/json")])

/-! ## `MCPServer` (`src/mcp_server.py`) -/

/-- The state of an `MCPServer` instance: its tool and resource
registries (`self.tools`, `self.resources`). -/
structure MCPServer where
  tools : PyFields
  resources : PyFields
deriving DecidableEq

/-- `MCPServer.__init__`: the registry literals. -/
def MCPServer.init : MCPServer where
  tools := fieldsOf [
    ("echo", echoTool),
    ("get_time", getTimeTool),
    ("get_SMMSMasterlist", getSMMSMasterlistTool),
    ("get_webinarAttendees", getWebinarAttendeesTool)]
  resources := fieldsOf [("config://server", serverConfigResource)]

/-- The module-scope global `mcp = MCPServer()`. -/
def mcp : MCPServer := MCPServer.init

/-- `MCPServer._handle_initialize`. -/
def MCPServer.handleInitialize (srv : MCPServer) (request : PyDict) :
    PyVal × MCPServer :=
  (mkSuccess (pyDictGet request "id")
    (.dict (fieldsOf [
      ("protocolVersion", .str "2024-11-05"),
      ("capabilities", .dict (fieldsOf [
        ("tools", .dict .nil), ("resources", .dict .nil)])),
      ("serverInfo", .dict (fieldsOf [
        ("name", .str "Vercel MCP Server"), ("version", .str "1.0.0")]))])),
   srv)

/-- `MCPServer._handle_tools_list`:
`{"result": {"tools": list(self.tools.values())}}`. -/
def MCPServer.handleToolsList (srv : MCPServer) (request : PyDict) :
    PyVal × MCPServer :=
  (mkSuccess (pyDictGet request "id")
    (.dict (fieldsOf [("tools", .list srv.tools.values)])), srv)

/-- `MCPServer._handle_tools_call`.  `params`/`arguments` are fetched with
`.get`, which raises `AttributeError` when the fetched value is not a
dict; the CSV reads of the two data-backed tools sit inside
`try/except FileNotFoundError` whose handler produces the
`"File <path> not found."` result text; any other exception propagates to
`handle_request`'s boundary. -/
def MCPServer.handleToolsCall (env : Env) (srv : MCPServer) (request : PyDict) :
    Except PyExn (PyVal × MCPServer) :=
  match pyGet (pyDictGetD request "params" (.dict .nil)) "name" with
  | .error e => .error e
  | .ok tool_name =>
    match pyGetD (pyDictGetD request "params" (.dict .nil)) "arguments" (.dict .nil) with
    | .error e => .error e
    | .ok arguments =>
      if tool_name = .str "echo" then
        match pyGetD arguments "message" (.str "") with
        | .error e => .error e
        | .ok message =>
            .ok (mkSuccess (pyDictGet request "id")
              (toolCallResult ("Tool echo: " ++ pyFStr message)), srv)
      else if tool_name = .str "get_time" then
        .ok (mkSuccess (pyDictGet request "id")
          (toolCallResult ("Current Vercel server time: " ++ env.now)), srv)
      else if tool_name = .str "get_SMMSMasterlist" then
        -- os.path.join('./Boards data', "SMMSMasterList.csv")
        match env.readCsvStr "./Boards data/SMMSMasterList.csv" with
        | .ok s => .ok (mkSuccess (pyDictGet request "id") (toolCallResult s), srv)
        | .error e =>
            if e.isFileNotFound then
              .ok (mkSuccess (pyDictGet request "id")
                (toolCallResult "File ./Boards data/SMMSMasterList.csv not found."), srv)
            else .error e
      else if tool_name = .str "get_webinarAttendees" then
        match env.readCsvStr "./Boards data/webinarAttendees.csv" with
        | .ok s => .ok (mkSuccess (pyDictGet request "id") (toolCallResult s), srv)
        | .error e =>
            if e.isFileNotFound then
              .ok (mkSuccess (pyDictGet request "id")
                (toolCallResult "File ./Boards data/webinarAttendees.csv not found."), srv)
            else .error e
      else
        .ok (createErrorResponse (-32601) ("Tool not found: " ++ pyFStr tool_name), srv)

/-- `MCPServer._handle_resources_list`. -/
def MCPServer.handleResourcesList (srv : MCPServer) (request : PyDict) :
    PyVal × MCPServer :=
  (mkSuccess (pyDictGet request "id")
    (.dict (fieldsOf [("resources", .list srv.resources.values)])), srv)

/-- The fixed configuration document serialized by `resources/read`. -/
def serverConfigVal : PyVal :=
  .dict (fieldsOf [
    ("version", .str "1.0.0"),
    ("environment", .str "vercel"),
    ("features", .list (listOf [.str "tools", .str "resources"]))])

/-- `MCPServer._handle_resources_read`. -/
def MCPServer.handleResourcesRead (srv : MCPServer) (request : PyDict) :
    Except PyExn (PyVal × MCPServer) :=
  match pyGet (pyDictGetD request "params" (.dict .nil)) "uri" with
  | .error e => .error e
  | .ok uri =>
    if uri = .str "config://server" then
      .ok (mkSuccess (pyDictGet request "id")
        (.dict (fieldsOf [("contents", .list (listOf [.dict (fieldsOf [
          ("uri", uri),
          ("mimeType", .str "application/json"),
          ("text", .str (jsonDumps serverConfigVal))])]))])), srv)
    else
      .ok (createErrorResponse (-32601) ("Resource not found: " ++ pyFStr uri), srv)

/-- The dispatch chain inside `MCPServer.handle_request`'s `try:` block. -/
def MCPServer.handleRequestBody (env : Env) (srv : MCPServer)
    (request : PyDict) : Except PyExn (PyVal × MCPServer) :=
  if pyDictGet request "method" = .str "initialize" then
    .ok (srv.handleInitialize request)
  else if pyDictGet request "method" = .str "tools/list" then
    .ok (srv.handleToolsList request)
  else if pyDictGet request "method" = .str "tools/call" then
    srv.handleToolsCall env request
  else if pyDictGet request "method" = .str "resources/list" then
    .ok (srv.handleResourcesList request)
  else if pyDictGet request "method" = .str "resources/read" then
    srv.handleResourcesRead request
  else
    .ok (createErrorResponse (-32601)
      ("Method not found: " ++ pyFStr (pyDictGet request "method")), srv)

/-- `MCPServer.handle_request`: the dispatch chain wrapped in
`try: ... except Exception as e: return self._create_error_response(-32603,
f"Internal error: {str(e)}")`. -/
def MCPServer.handleRequest (env : Env) (srv : MCPServer)
    (request : PyDict) : PyVal × MCPServer :=
  match srv.handleRequestBody env request with
  | .ok r => r
  | .error e => (createErrorResponse (-32603) ("Internal error: " ++ e.msg), srv)

/-! ## `handle_mcp_request` (`api/index.py`)

Same dispatch chain, but: no top-level `try/except`, inline descriptor
literals, and the two data-backed tools read
`./Board string/<name>.text` with a bare `open(...)` — a missing file
raises `FileNotFoundError` that propagates out of the function. -/

def handleMcpRequest (env : Env) (request_data : PyDict) : Except PyExn PyVal :=
  if pyDictGet request_data "method" = .str "initialize" then
    .ok (mkSuccess (pyDictGet request_data "id")
      (.dict (fieldsOf [
        ("protocolVersion", .str "2024-11-05"),
        ("capabilities", .dict (fieldsOf [
          ("tools", .dict .nil), ("resources", .dict .nil)])),
        ("serverInfo", .dict (fieldsOf [
          ("name", .str "Vercel MCP Server"), ("version", .str "1.0.0")]))])))
  else if pyDictGet request_data "method" = .str "tools/list" then
    .ok (mkSuccess (pyDictGet request_data "id")
      (.dict (fieldsOf [("tools", .list (listOf
        [echoTool, getTimeTool, getSMMSMasterlistTool, getWebinarAttendeesTool]))])))
  else if pyDictGet request_data "method" = .str "tools/call" then
    match pyGet (pyDictGetD request_data "params" (.dict .nil)) "name" with
    | .error e => .error e
    | .ok tool_name =>
      match pyGetD (pyDictGetD request_data "params" (.dict .nil)) "arguments" (.dict .nil) with
      | .error e => .error e
      | .ok arguments =>
        if tool_name = .str "echo" then
          match pyGetD arguments "message" (.str "") with
          | .error e => .error e
          | .ok message =>
              .ok (mkSuccess (pyDictGet request_data "id")
                (toolCallResult ("Tool echo: " ++ pyFStr message)))
        else if tool_name = .str "get_time" then
          .ok (mkSuccess (pyDictGet request_data "id")
            (toolCallResult ("Current Vercel server time: " ++ env.now)))
        else if tool_name = .str "get_SMMSMasterlist" then
          -- open(os.path.join('./Board string', "SMMSMasterList.text")): no
          -- except clause, so a missing file raises across the boundary.
          match env.openRead "./Board string/SMMSMasterList.text" with
          | .error e => .error e
          | .ok s => .ok (mkSuccess (pyDictGet request_data "id") (toolCallResult s))
        else if tool_name = .str "get_webinarAttendees" then
          match env.openRead "./Board string/webinarAttendees.text" with
          | .error e => .error e
          | .ok s => .ok (mkSuccess (pyDictGet request_data "id") (toolCallResult s))
        else
          .ok (createErrorResponse (-32601) ("Tool not found: " ++ pyFStr tool_name))
  else if pyDictGet request_data "method" = .str "resources/list" then
    .ok (mkSuccess (pyDictGet request_data "id")
      (.dict (fieldsOf [("resources", .list (listOf [serverConfigResource]))])))
  else if pyDictGet request_data "method" = .str "resources/read" then
    match pyGet (pyDictGetD request_data "params" (.dict .nil)) "uri" with
    | .error e => .error e
    | .ok uri =>
      if uri = .str "config://server" then
        .ok (mkSuccess (pyDictGet request_data "id")
          (.dict (fieldsOf [("contents", .list (listOf [.dict (fieldsOf [
            ("uri", uri),
            ("mimeType", .str "application/json"),
            ("text", .str (jsonDumps serverConfigVal))])]))])))
      else
        .ok (createErrorResponse (-32601) ("Resource not found: " ++ pyFStr uri))
  else
    .ok (createErrorResponse (-32601)
      ("Method not found: " ++ pyFStr (pyDictGet request_data "method")))

/-! ## Response-shape predicates -/

/-- Whether a value is a dict. -/
def PyVal.isDict : PyVal → Bool
  | .dict _ => true
  | _ => false

/-- Whether a dict value carries key `k`. -/
def hasKeyVal (r : PyVal) (k : String) : Bool :=
  match r with
  | .dict kvs => (kvs.lookup k).isSome
  | _ => false

/-- The value at key `k` of a dict value. -/
def getKeyVal (r : PyVal) (k : String) : Option PyVal :=
  match r with
  | .dict kvs => kvs.lookup k
  | _ => Option.none

/-- Success shape: has `result`, no `error`. -/
def isSuccessShape (r : PyVal) : Bool :=
  hasKeyVal r "result" && !(hasKeyVal r "error")

/-- Error shape: has `error`, no `result`. -/
def isErrorShape (r : PyVal) : Bool :=
  hasKeyVal r "error" && !(hasKeyVal r "result")

theorem mkSuccess_isSuccessShape (id res : PyVal) :
    isSuccessShape (mkSuccess id res) = true := by
  simp [mkSuccess, fieldsOf, isSuccessShape, hasKeyVal, PyFields.lookup]

theorem mkSuccess_not_isErrorShape (id res : PyVal) :
    isErrorShape (mkSuccess id res) = false := by
  simp [mkSuccess, fieldsOf, isErrorShape, hasKeyVal, PyFields.lookup]

theorem mkSuccess_jsonrpc (id res : PyVal) :
    getKeyVal (mkSuccess id res) "jsonrpc" = Option.some (.str "2.0") := by
  simp [mkSuccess, fieldsOf, getKeyVal, PyFields.lookup]

theorem mkSuccess_id (id res : PyVal) :
    getKeyVal (mkSuccess id res) "id" = Option.some id := by
  simp [mkSuccess, fieldsOf, getKeyVal, PyFields.lookup]

theorem createErrorResponse_isErrorShape (c : Int) (m : String) :
    isErrorShape (createErrorResponse c m) = true := by
  simp [createErrorResponse, fieldsOf, isErrorShape, hasKeyVal, PyFields.lookup]

theorem createErrorResponse_not_isSuccessShape (c : Int) (m : String) :
    isSuccessShape (createErrorResponse c m) = false := by
  simp [createErrorResponse, fieldsOf, isSuccessShape, hasKeyVal, PyFields.lookup]

theorem createErrorResponse_jsonrpc (c : Int) (m : String) :
    getKeyVal (createErrorResponse c m) "jsonrpc" = Option.some (.str "2.0") := by
  simp [createErrorResponse, fieldsOf, getKeyVal, PyFields.lookup]

theorem createErrorResponse_no_id (c : Int) (m : String) :
    hasKeyVal (createErrorResponse c m) "id" = false := by
  simp [createErrorResponse, fieldsOf, hasKeyVal, PyFields.lookup]

/-- `v.get(k)` succeeds exactly on dicts, yielding the dict lookup. -/
theorem pyGet_ok (v : PyVal) (k : String) (x : PyVal) :
    pyGet v k = .ok x ↔ ∃ kvs, v = .dict kvs ∧ pyDictGet kvs k = x := by
  cases v <;> simp [pyGet]

/-- `v.get(k)` raises the `AttributeError` exactly on non-dicts. -/
theorem pyGet_error (v : PyVal) (k : String) (e : PyExn) :
    pyGet v k = .error e ↔ v.isDict = false ∧ e = .attributeError (attrGetMsg v) := by
  cases v <;> simp [pyGet, PyVal.isDict, eq_comm]

/-! ## Case characterizations of the dispatchers -/

/-- Every outcome of `_handle_tools_call` is a success envelope echoing the
request id, a `-32601` error envelope, or a raised exception; the server
state always comes back unchanged. -/
theorem handleToolsCall_cases (env : Env) (srv : MCPServer) (req : PyDict) :
    (∃ res, srv.handleToolsCall env req = .ok (mkSuccess (pyDictGet req "id") res, srv)) ∨
    (∃ m, srv.handleToolsCall env req = .ok (createErrorResponse (-32601) m, srv)) ∨
    (∃ e, srv.handleToolsCall env req = .error e) := by
  unfold MCPServer.handleToolsCall
  repeat' split
  all_goals first
    | (left; exact ⟨_, rfl⟩)
    | (right; left; exact ⟨_, rfl⟩)
    | (right; right; exact ⟨_, rfl⟩)

/-- Same characterization for `_handle_resources_read`. -/
theorem handleResourcesRead_cases (srv : MCPServer) (req : PyDict) :
    (∃ res, srv.handleResourcesRead req = .ok (mkSuccess (pyDictGet req "id") res, srv)) ∨
    (∃ m, srv.handleResourcesRead req = .ok (createErrorResponse (-32601) m, srv)) ∨
    (∃ e, srv.handleResourcesRead req = .error e) := by
  unfold MCPServer.handleResourcesRead
  repeat' split
  all_goals first
    | (left; exact ⟨_, rfl⟩)
    | (right; left; exact ⟨_, rfl⟩)
    | (right; right; exact ⟨_, rfl⟩)

/-- Same characterization for the dispatch chain inside
`handle_request`'s `try:` block. -/
theorem handleRequestBody_cases (env : Env) (srv : MCPServer) (req : PyDict) :
    (∃ res, srv.handleRequestBody env req = .ok (mkSuccess (pyDictGet req "id") res, srv)) ∨
    (∃ m, srv.handleRequestBody env req = .ok (createErrorResponse (-32601) m, srv)) ∨
    (∃ e, srv.handleRequestBody env req = .error e) := by
  unfold MCPServer.handleRequestBody MCPServer.handleInitialize
    MCPServer.handleToolsList MCPServer.handleResourcesList
  repeat' split
  · left; exact ⟨_, rfl⟩
  · left; exact ⟨_, rfl⟩
  · exact handleToolsCall_cases env srv req
  · left; exact ⟨_, rfl⟩
  · exact handleResourcesRead_cases srv req
  · right; left; exact ⟨_, rfl⟩

/-- `handle_request` always returns a response that is either a success
envelope echoing the request id or an error envelope; the registry state
always comes back unchanged. -/
theorem handleRequest_cases (env : Env) (srv : MCPServer) (req : PyDict) :
    (∃ res, MCPServer.handleRequest env srv req =
      (mkSuccess (pyDictGet req "id") res, srv)) ∨
    (∃ c m, MCPServer.handleRequest env srv req =
      (createErrorResponse c m, srv)) := by
  rcases handleRequestBody_cases env srv req with ⟨res, h⟩ | ⟨m, h⟩ | ⟨e, h⟩
  · left; exact ⟨res, by simp [MCPServer.handleRequest, h]⟩
  · right; exact ⟨-32601, m, by simp [MCPServer.handleRequest, h]⟩
  · right; exact ⟨-32603, "Internal error: " ++ e.msg,
      by simp [MCPServer.handleRequest, h]⟩

/-- Every value `handle_mcp_request` returns (when it does not raise) is a
success envelope echoing the request id or a `-32601` error envelope. -/
theorem handleMcpRequest_cases (env : Env) (req : PyDict) :
    (∃ res, handleMcpRequest env req = .ok (mkSuccess (pyDictGet req "id") res)) ∨
    (∃ m, handleMcpRequest env req = .ok (createErrorResponse (-32601) m)) ∨
    (∃ e, handleMcpRequest env req = .error e) := by
  unfold handleMcpRequest
  repeat' split
  all_goals first
    | (left; exact ⟨_, rfl⟩)
    | (right; left; exact ⟨_, rfl⟩)
    | (right; right; exact ⟨_, rfl⟩)

/-! ## Concrete worlds and requests used by the closed theorems -/

/-- A world where no board-data file exists: every file operation raises
`FileNotFoundError`, with the message CPython attaches to it. -/
def envNoFiles : Env where
  now := "2024-01-01T12:00:00.000000"
  readCsvStr := fun p => .error (.fileNotFound
    ("[Errno 2] No such file or directory: " ++ pyStrRepr p))
  openRead := fun p => .error (.fileNotFound
    ("[Errno 2] No such file or directory: " ++ pyStrRepr p))

/-- A world where reading board data raises an exception that is not a
`FileNotFoundError` (e.g. a pandas parse error). -/
def envRaise : Env where
  now := "2024-01-01T12:00:00.000000"
  readCsvStr := fun _ => .error (.other "boom")
  openRead := fun _ => .error (.other "boom")

/-- `tools/call` of `get_SMMSMasterlist`. -/
def smmsCallReq : PyDict := fieldsOf [
  ("method", .str "tools/call"), ("id", .int 7),
  ("params", .dict (fieldsOf [("name", .str "get_SMMSMasterlist")]))]

/-- `tools/call` of `get_webinarAttendees`. -/
def webinarCallReq : PyDict := fieldsOf [
  ("method", .str "tools/call"), ("id", .int 8),
  ("params", .dict (fieldsOf [("name", .str "get_webinarAttendees")]))]

/-! ## Claim theorems -/

/-- C9: handling any request leaves the registry (the server's tool map
and resource map) unchanged: no handler adds, removes, or modifies a tool
descriptor or resource descriptor. -/
theorem c9_registry_frame (env : Env) (srv : MCPServer) (req : PyDict) :
    (MCPServer.handleRequest env srv req).2 = srv ∧
    (MCPServer.handleRequest env srv req).2.tools = srv.tools ∧
    (MCPServer.handleRequest env srv req).2.resources = srv.resources := by
  rcases handleRequest_cases env srv req with ⟨res, h⟩ | ⟨c, m, h⟩ <;>
    rw [h] <;> exact ⟨rfl, rfl, rfl⟩

/-- C4: every response of `handle_request` is exactly one of success shape
(`result` present, `error` absent) or error shape (`error` present,
`result` absent), and on success its `id` field equals `request.get("id")`
(which is `None` both for an explicit `null` and for an absent `id`); the
same holds for every value `handle_mcp_request` returns. -/
theorem c4_response_shape (env : Env) (srv : MCPServer) (req : PyDict) :
    ((isSuccessShape (MCPServer.handleRequest env srv req).1 = true ∧
      isErrorShape (MCPServer.handleRequest env srv req).1 = false) ∨
     (isErrorShape (MCPServer.handleRequest env srv req).1 = true ∧
      isSuccessShape (MCPServer.handleRequest env srv req).1 = false)) ∧
    (isSuccessShape (MCPServer.handleRequest env srv req).1 = true →
      getKeyVal (MCPServer.handleRequest env srv req).1 "id" =
        Option.some (pyDictGet req "id")) ∧
    (∀ r, handleMcpRequest env req = .ok r →
      ((isSuccessShape r = true ∧ isErrorShape r = false) ∨
       (isErrorShape r = true ∧ isSuccessShape r = false)) ∧
      (isSuccessShape r = true →
        getKeyVal r "id" = Option.some (pyDictGet req "id"))) := by
  refine ⟨?_, ?_, ?_⟩
  · rcases handleRequest_cases env srv req with ⟨res, h⟩ | ⟨c, m, h⟩ <;> rw [h]
    · exact Or.inl ⟨mkSuccess_isSuccessShape _ _, mkSuccess_not_isErrorShape _ _⟩
    · exact Or.inr ⟨createErrorResponse_isErrorShape _ _,
        createErrorResponse_not_isSuccessShape _ _⟩
  · rcases handleRequest_cases env srv req with ⟨res, h⟩ | ⟨c, m, h⟩ <;> rw [h]
    · intro _; exact mkSuccess_id _ _
    · intro hs
      rw [createErrorResponse_not_isSuccessShape] at hs
      exact absurd hs (by simp)
  · intro r hr
    rcases handleMcpRequest_cases env req with ⟨res, h⟩ | ⟨m, h⟩ | ⟨e, h⟩ <;>
      rw [h] at hr
    · cases hr
      exact ⟨Or.inl ⟨mkSuccess_isSuccessShape _ _, mkSuccess_not_isErrorShape _ _⟩,
        fun _ => mkSuccess_id _ _⟩
    · cases hr
      refine ⟨Or.inr ⟨createErrorResponse_isErrorShape _ _,
        createErrorResponse_not_isSuccessShape _ _⟩, fun hs => ?_⟩
      rw [createErrorResponse_not_isSuccessShape] at hs
      exact absurd hs (by simp)
    · cases hr

/-- C4 witness: on a concrete `initialize` request with `id = 1`, the
response is success-shaped and its `id` field is `1`. -/
theorem c4_response_shape_witness :
    isSuccessShape (MCPServer.handleRequest envNoFiles mcp
      (fieldsOf [("method", .str "initialize"), ("id", .int 1)])).1 = true ∧
    getKeyVal (MCPServer.handleRequest envNoFiles mcp
      (fieldsOf [("method", .str "initialize"), ("id", .int 1)])).1 "id" =
      Option.some (.int 1) := by
  refine ⟨by decide, ?_⟩
  exact (c4_response_shape envNoFiles mcp
    (fieldsOf [("method", .str "initialize"), ("id", .int 1)])).2.1 (by decide)

/-- C10: whenever `handle_request` produces an error-shaped response
(`_create_error_response` output), the response carries no `id` key at
all, even when the originating request has one; likewise for every
error-shaped value `handle_mcp_request` returns. -/
theorem c10_error_no_id (env : Env) (srv : MCPServer) (req : PyDict) :
    (isErrorShape (MCPServer.handleRequest env srv req).1 = true →
      hasKeyVal (MCPServer.handleRequest env srv req).1 "id" = false) ∧
    (∀ r, handleMcpRequest env req = .ok r → isErrorShape r = true →
      hasKeyVal r "id" = false) := by
  constructor
  · rcases handleRequest_cases env srv req with ⟨res, h⟩ | ⟨c, m, h⟩ <;> rw [h]
    · intro hs
      rw [mkSuccess_not_isErrorShape] at hs
      exact absurd hs (by simp)
    · intro _; exact createErrorResponse_no_id _ _
  · intro r hr
    rcases handleMcpRequest_cases env req with ⟨res, h⟩ | ⟨m, h⟩ | ⟨e, h⟩ <;>
      rw [h] at hr
    · cases hr
      intro hs
      rw [mkSuccess_not_isErrorShape] at hs
      exact absurd hs (by simp)
    · cases hr
      intro _; exact createErrorResponse_no_id _ _
    · cases hr

/-- C10 witness: the error response to an unknown-method request that
carries `id = 9` has no `id` key. -/
theorem c10_error_no_id_witness :
    isErrorShape (MCPServer.handleRequest envNoFiles mcp
      (fieldsOf [("method", .str "foo/bar"), ("id", .int 9)])).1 = true ∧
    hasKeyVal (MCPServer.handleRequest envNoFiles mcp
      (fieldsOf [("method", .str "foo/bar"), ("id", .int 9)])).1 "id" = false := by
  refine ⟨by decide, ?_⟩
  exact (c10_error_no_id envNoFiles mcp
    (fieldsOf [("method", .str "foo/bar"), ("id", .int 9)])).1 (by decide)

/-- C1: `MCPServer.handle_request` always returns a JSON-RPC response
(success- or error-shaped, `jsonrpc: "2.0"`), and an exception raised
inside a handler (here: a non-`FileNotFoundError` from the CSV read)
surfaces as the `-32603` error response carrying the failure's message —
but `handle_mcp_request` in `api/index.py` has no such boundary: with the
backing file absent, the same `tools/call` request makes it raise a
`FileNotFoundError` across its boundary instead of returning a response. -/
theorem c1_internal_error_boundary :
    (∀ (env : Env) (srv : MCPServer) (req : PyDict),
      getKeyVal (MCPServer.handleRequest env srv req).1 "jsonrpc" =
        Option.some (.str "2.0") ∧
      (isSuccessShape (MCPServer.handleRequest env srv req).1 = true ∨
       isErrorShape (MCPServer.handleRequest env srv req).1 = true)) ∧
    (∀ srv : MCPServer,
      (MCPServer.handleRequest envRaise srv smmsCallReq).1 =
        createErrorResponse (-32603) "Internal error: boom") ∧
    handleMcpRequest envNoFiles smmsCallReq =
      .error (.fileNotFound ("[Errno 2] No such file or directory: " ++
        pyStrRepr "./Board string/SMMSMasterList.text")) := by
  refine ⟨?_, ?_, ?_⟩
  · intro env srv req
    rcases handleRequest_cases env srv req with ⟨res, h⟩ | ⟨c, m, h⟩ <;> rw [h]
    · exact ⟨mkSuccess_jsonrpc _ _, Or.inl (mkSuccess_isSuccessShape _ _)⟩
    · exact ⟨createErrorResponse_jsonrpc _ _,
        Or.inr (createErrorResponse_isErrorShape _ _)⟩
  · intro srv; rfl
  · rfl

/-- C2: with the backing CSV files absent, `MCPServer.handle_request`
answers both data-backed `tools/call` requests with a SUCCESS response
whose result text is the human-readable not-found message — while
`handle_mcp_request` in `api/index.py` instead raises the uncaught
`FileNotFoundError` across its boundary for the same requests. -/
theorem c2_data_absence :
    (MCPServer.handleRequest envNoFiles mcp smmsCallReq).1 =
      mkSuccess (.int 7)
        (toolCallResult "File ./Boards data/SMMSMasterList.csv not found.") ∧
    (MCPServer.handleRequest envNoFiles mcp webinarCallReq).1 =
      mkSuccess (.int 8)
        (toolCallResult "File ./Boards data/webinarAttendees.csv not found.") ∧
    handleMcpRequest envNoFiles webinarCallReq =
      .error (.fileNotFound ("[Errno 2] No such file or directory: " ++
        pyStrRepr "./Board string/webinarAttendees.text")) :=
  ⟨rfl, rfl, rfl⟩

/-- `v.get(k)` on a non-dict raises the `AttributeError`. -/
theorem pyGet_raises (v : PyVal) (k : String) (h : v.isDict = false) :
    pyGet v k = .error (.attributeError (attrGetMsg v)) := by
  cases v <;> simp_all [pyGet, PyVal.isDict]

/-- `tools/call` with `params` that is a string, not an object. -/
def badParamsCallReq : PyDict := fieldsOf [
  ("method", .str "tools/call"), ("params", .str "oops")]

/-- `tools/call` with no `params` at all (so the required `params.name`
is absent). -/
def noParamsCallReq : PyDict := fieldsOf [("method", .str "tools/call")]

/-- `resources/read` with `params` that is a number, not an object. -/
def badParamsReadReq : PyDict := fieldsOf [
  ("method", .str "resources/read"), ("params", .int 3)]

/-- C3 counterexample: on a `tools/call` request whose `params` is the
string `"oops"`, `handle_request` does NOT respond as it does for a
request with `params` absent.  The missing-required-field response is the
`-32601` "Tool not found: None" error; the non-object `params` instead
produces the `-32603` internal-error response for the `AttributeError`
raised by `params.get`. -/
theorem c3_nonobject_params_counterexample :
    (MCPServer.handleRequest envNoFiles mcp badParamsCallReq).1 =
      createErrorResponse (-32603)
        ("Internal error: " ++ attrGetMsg (.str "oops")) ∧
    (MCPServer.handleRequest envNoFiles mcp noParamsCallReq).1 =
      createErrorResponse (-32601) "Tool not found: None" ∧
    (MCPServer.handleRequest envNoFiles mcp badParamsCallReq).1 ≠
      (MCPServer.handleRequest envNoFiles mcp noParamsCallReq).1 := by
  refine ⟨rfl, rfl, ?_⟩
  decide

/-- C3 as amended: a present-but-non-object `params` on `tools/call` or
`resources/read` is not treated as empty; `params.get` raises
`AttributeError`, which `MCPServer.handle_request` converts at its top
boundary into the `-32603` internal-error response (and which
`handle_mcp_request` in `api/index.py` propagates uncaught).  An absent
`params` is the case that defaults to the empty dict. -/
theorem c3_nonobject_params_internal_error (env : Env) (srv : MCPServer)
    (req : PyDict) (h : (pyDictGetD req "params" (.dict .nil)).isDict = false) :
    (pyDictGet req "method" = .str "tools/call" →
      MCPServer.handleRequest env srv req =
        (createErrorResponse (-32603) ("Internal error: " ++
          attrGetMsg (pyDictGetD req "params" (.dict .nil))), srv)) ∧
    (pyDictGet req "method" = .str "resources/read" →
      MCPServer.handleRequest env srv req =
        (createErrorResponse (-32603) ("Internal error: " ++
          attrGetMsg (pyDictGetD req "params" (.dict .nil))), srv)) ∧
    (pyDictGet req "method" = .str "tools/call" →
      handleMcpRequest env req = .error (.attributeError
        (attrGetMsg (pyDictGetD req "params" (.dict .nil))))) := by
  have hname := pyGet_raises (pyDictGetD req "params" (.dict .nil)) "name" h
  have huri := pyGet_raises (pyDictGetD req "params" (.dict .nil)) "uri" h
  refine ⟨fun hm => ?_, fun hm => ?_, fun hm => ?_⟩
  · unfold MCPServer.handleRequest MCPServer.handleRequestBody
      MCPServer.handleToolsCall
    simp [hm, hname, PyExn.msg]
  · unfold MCPServer.handleRequest MCPServer.handleRequestBody
      MCPServer.handleResourcesRead
    simp [hm, huri, PyExn.msg]
  · unfold handleMcpRequest
    simp [hm, hname]

/-- C3 witness: the amended behavior at concrete inputs — string `params`
on `tools/call` and numeric `params` on `resources/read`. -/
theorem c3_nonobject_params_internal_error_witness :
    MCPServer.handleRequest envNoFiles mcp badParamsCallReq =
      (createErrorResponse (-32603)
        ("Internal error: " ++ attrGetMsg (.str "oops")), mcp) ∧
    MCPServer.handleRequest envNoFiles mcp badParamsReadReq =
      (createErrorResponse (-32603)
        ("Internal error: " ++ attrGetMsg (.int 3)), mcp) ∧
    handleMcpRequest envNoFiles badParamsCallReq =
      .error (.attributeError (attrGetMsg (.str "oops"))) := by
  refine ⟨?_, ?_, ?_⟩
  · exact (c3_nonobject_params_internal_error envNoFiles mcp badParamsCallReq
      (by decide)).1 (by decide)
  · exact (c3_nonobject_params_internal_error envNoFiles mcp badParamsReadReq
      (by decide)).2.1 (by decide)
  · exact (c3_nonobject_params_internal_error envNoFiles mcp badParamsCallReq
      (by decide)).2.2 (by decide)

/-- C5: lookup misses are reported as `-32601` errors naming the missing
key: unknown method (any `method` value other than the five fixed
strings, including an absent one, which `request.get` renders as `None`),
unknown tool name under `tools/call`, unknown resource URI under
`resources/read`. -/
theorem c5_not_found_errors (env : Env) (srv : MCPServer) (req : PyDict) :
    (pyDictGet req "method" ≠ .str "initialize" →
     pyDictGet req "method" ≠ .str "tools/list" →
     pyDictGet req "method" ≠ .str "tools/call" →
     pyDictGet req "method" ≠ .str "resources/list" →
     pyDictGet req "method" ≠ .str "resources/read" →
      (MCPServer.handleRequest env srv req).1 =
        createErrorResponse (-32601)
          ("Method not found: " ++ pyFStr (pyDictGet req "method"))) ∧
    (∀ n, pyDictGet req "method" = .str "tools/call" →
     pyGet (pyDictGetD req "params" (.dict .nil)) "name" = .ok n →
     n ≠ .str "echo" → n ≠ .str "get_time" →
     n ≠ .str "get_SMMSMasterlist" → n ≠ .str "get_webinarAttendees" →
      (MCPServer.handleRequest env srv req).1 =
        createErrorResponse (-32601) ("Tool not found: " ++ pyFStr n)) ∧
    (∀ u, pyDictGet req "method" = .str "resources/read" →
     pyGet (pyDictGetD req "params" (.dict .nil)) "uri" = .ok u →
     u ≠ .str "config://server" →
      (MCPServer.handleRequest env srv req).1 =
        createErrorResponse (-32601) ("Resource not found: " ++ pyFStr u)) := by
  refine ⟨fun h1 h2 h3 h4 h5 => ?_, fun n hm hn hn1 hn2 hn3 hn4 => ?_,
    fun u hm hu hu1 => ?_⟩
  · unfold MCPServer.handleRequest MCPServer.handleRequestBody
    simp [h1, h2, h3, h4, h5]
  · obtain ⟨kvs, hp, hv⟩ := (pyGet_ok _ _ _).mp hn
    unfold MCPServer.handleRequest MCPServer.handleRequestBody
      MCPServer.handleToolsCall
    simp [hm, hp, hv, pyGet, pyGetD, hn1, hn2, hn3, hn4]
  · obtain ⟨kvs, hp, hv⟩ := (pyGet_ok _ _ _).mp hu
    unfold MCPServer.handleRequest MCPServer.handleRequestBody
      MCPServer.handleResourcesRead
    simp [hm, hp, hv, pyGet, hu1]

/-- C5 witness: unknown method `foo/bar`, unknown tool `unknown_tool`,
unknown resource `bogus://x`, each with the exact message. -/
theorem c5_not_found_errors_witness :
    (MCPServer.handleRequest envNoFiles mcp
      (fieldsOf [("method", .str "foo/bar")])).1 =
      createErrorResponse (-32601) "Method not found: foo/bar" ∧
    (MCPServer.handleRequest envNoFiles mcp
      (fieldsOf [("method", .str "tools/call"),
        ("params", .dict (fieldsOf [("name", .str "unknown_tool")]))])).1 =
      createErrorResponse (-32601) "Tool not found: unknown_tool" ∧
    (MCPServer.handleRequest envNoFiles mcp
      (fieldsOf [("method", .str "resources/read"),
        ("params", .dict (fieldsOf [("uri", .str "bogus://x")]))])).1 =
      createErrorResponse (-32601) "Resource not found: bogus://x" := by
  refine ⟨?_, ?_, ?_⟩
  · exact (c5_not_found_errors envNoFiles mcp
      (fieldsOf [("method", .str "foo/bar")])).1
      (by decide) (by decide) (by decide) (by decide) (by decide)
  · exact (c5_not_found_errors envNoFiles mcp
      (fieldsOf [("method", .str "tools/call"),
        ("params", .dict (fieldsOf [("name", .str "unknown_tool")]))])).2.1
      (.str "unknown_tool") (by decide) (by rfl)
      (by decide) (by decide) (by decide) (by decide)
  · exact (c5_not_found_errors envNoFiles mcp
      (fieldsOf [("method", .str "resources/read"),
        ("params", .dict (fieldsOf [("uri", .str "bogus://x")]))])).2.2
      (.str "bogus://x") (by decide) (by rfl) (by decide)

/-- C6: a `tools/list` request yields the full insertion-order sequence of
the registry's tool descriptors (`list(self.tools.values())`); a second
call with the same request — even under a different world state — returns
the identical response from the unchanged registry, and the concrete
registry built by `__init__` lists the four descriptors in insertion
order. -/
theorem c6_tools_list (env env2 : Env) (srv : MCPServer) (req : PyDict)
    (h : pyDictGet req "method" = .str "tools/list") :
    MCPServer.handleRequest env srv req =
      (mkSuccess (pyDictGet req "id")
        (.dict (fieldsOf [("tools", .list srv.tools.values)])), srv) ∧
    MCPServer.handleRequest env2 (MCPServer.handleRequest env srv req).2 req =
      MCPServer.handleRequest env srv req ∧
    mcp.tools.values = listOf
      [echoTool, getTimeTool, getSMMSMasterlistTool, getWebinarAttendeesTool] := by
  have hrun : ∀ e : Env, MCPServer.handleRequest e srv req =
      (mkSuccess (pyDictGet req "id")
        (.dict (fieldsOf [("tools", .list srv.tools.values)])), srv) := by
    intro e
    unfold MCPServer.handleRequest MCPServer.handleRequestBody
      MCPServer.handleToolsList
    simp [h]
  refine ⟨hrun env, ?_, rfl⟩
  rw [hrun env, hrun env2]

/-- C6 witness: the concrete `tools/list` request with `id = 2` against
the global `mcp` instance. -/
theorem c6_tools_list_witness :
    MCPServer.handleRequest envNoFiles mcp
      (fieldsOf [("method", .str "tools/list"), ("id", .int 2)]) =
      (mkSuccess (.int 2) (.dict (fieldsOf [("tools", .list mcp.tools.values)])),
        mcp) ∧
    MCPServer.handleRequest envRaise
      (MCPServer.handleRequest envNoFiles mcp
        (fieldsOf [("method", .str "tools/list"), ("id", .int 2)])).2
      (fieldsOf [("method", .str "tools/list"), ("id", .int 2)]) =
      MCPServer.handleRequest envNoFiles mcp
        (fieldsOf [("method", .str "tools/list"), ("id", .int 2)]) := by
  refine ⟨?_, ?_⟩
  · exact (c6_tools_list envNoFiles envRaise mcp
      (fieldsOf [("method", .str "tools/list"), ("id", .int 2)]) (by decide)).1
  · exact (c6_tools_list envNoFiles envRaise mcp
      (fieldsOf [("method", .str "tools/list"), ("id", .int 2)]) (by decide)).2.1

/-- C7: `resources/read` of `config://server` succeeds with
`contents[0].uri == "config://server"`, `contents[0].mimeType ==
"application/json"`, and a `contents[0].text` that parses back to the
configuration object `{version: "1.0.0", environment: "vercel",
features: ["tools", "resources"]}`. -/
theorem c7_resources_read_config (env : Env) (srv : MCPServer) (req : PyDict)
    (hm : pyDictGet req "method" = .str "resources/read")
    (hu : pyGet (pyDictGetD req "params" (.dict .nil)) "uri" =
      .ok (.str "config://server")) :
    (MCPServer.handleRequest env srv req).1 =
      mkSuccess (pyDictGet req "id")
        (.dict (fieldsOf [("contents", .list (listOf [.dict (fieldsOf [
          ("uri", .str "config://server"),
          ("mimeType", .str "application/json"),
          ("text", .str (jsonDumps serverConfigVal))])]))])) ∧
    parseJsonText (jsonDumps serverConfigVal) = Option.some serverConfigVal ∧
    serverConfigVal = .dict (fieldsOf [
      ("version", .str "1.0.0"),
      ("environment", .str "vercel"),
      ("features", .list (listOf [.str "tools", .str "resources"]))]) := by
  obtain ⟨kvs, hp, hv⟩ := (pyGet_ok _ _ _).mp hu
  refine ⟨?_, by decide, rfl⟩
  unfold MCPServer.handleRequest MCPServer.handleRequestBody
    MCPServer.handleResourcesRead
  simp [hm, hp, hv, pyGet]

/-- C7 witness: the concrete `resources/read` request for
`config://server` with `id = "a"`. -/
theorem c7_resources_read_config_witness :
    (MCPServer.handleRequest envNoFiles mcp
      (fieldsOf [("method", .str "resources/read"), ("id", .str "a"),
        ("params", .dict (fieldsOf [("uri", .str "config://server")]))])).1 =
      mkSuccess (.str "a")
        (.dict (fieldsOf [("contents", .list (listOf [.dict (fieldsOf [
          ("uri", .str "config://server"),
          ("mimeType", .str "application/json"),
          ("text", .str (jsonDumps serverConfigVal))])]))])) ∧
    parseJsonText (jsonDumps serverConfigVal) = Option.some serverConfigVal := by
  refine ⟨?_, ?_⟩
  · exact (c7_resources_read_config envNoFiles mcp
      (fieldsOf [("method", .str "resources/read"), ("id", .str "a"),
        ("params", .dict (fieldsOf [("uri", .str "config://server")]))])
      (by decide) (by rfl)).1
  · exact (c7_resources_read_config envNoFiles mcp
      (fieldsOf [("method", .str "resources/read"), ("id", .str "a"),
        ("params", .dict (fieldsOf [("uri", .str "config://server")]))])
      (by decide) (by rfl)).2.1

/-- `tools/call` of `echo` whose `arguments` is the number `5`, not an
object. -/
def echoBadArgsReq : PyDict := fieldsOf [
  ("method", .str "tools/call"),
  ("params", .dict (fieldsOf [("name", .str "echo"), ("arguments", .int 5)]))]

/-- C8 counterexample: a `tools/call` request with `params.name = "echo"`
whose `arguments` is `5` (not an object) does not produce an echo result
text at all: `arguments.get` raises `AttributeError`, surfaced as the
`-32603` internal-error response, so `echo` is not free of failure
modes over every request naming it. -/
theorem c8_echo_counterexample :
    (MCPServer.handleRequest envNoFiles mcp echoBadArgsReq).1 =
      createErrorResponse (-32603)
        ("Internal error: " ++ attrGetMsg (.int 5)) ∧
    isSuccessShape (MCPServer.handleRequest envNoFiles mcp echoBadArgsReq).1 =
      false := by
  exact ⟨rfl, by decide⟩

/-- C8 as amended: on every `tools/call` request with `params.name =
"echo"` whose `arguments` is an object (or absent, defaulting to the
empty object), both dispatchers return the success result text
`"Tool echo: " + str(message)` with `message = arguments.get("message",
"")`, and the server state is untouched; `arguments` present but not an
object instead raises the `AttributeError` handled per C3. -/
theorem c8_echo_result (env : Env) (srv : MCPServer) (req : PyDict)
    (akvs : PyFields)
    (hn : pyGet (pyDictGetD req "params" (.dict .nil)) "name" =
      .ok (.str "echo"))
    (ha : pyGetD (pyDictGetD req "params" (.dict .nil)) "arguments"
      (.dict .nil) = .ok (.dict akvs)) :
    (pyDictGet req "method" = .str "tools/call" →
      MCPServer.handleRequest env srv req =
        (mkSuccess (pyDictGet req "id")
          (toolCallResult
            ("Tool echo: " ++ pyFStr (pyDictGetD akvs "message" (.str "")))),
         srv)) ∧
    (pyDictGet req "method" = .str "tools/call" →
      handleMcpRequest env req =
        .ok (mkSuccess (pyDictGet req "id")
          (toolCallResult
            ("Tool echo: " ++ pyFStr (pyDictGetD akvs "message" (.str "")))))) := by
  obtain ⟨kvs, hp, hv⟩ := (pyGet_ok _ _ _).mp hn
  rw [hp] at ha
  simp only [pyGetD] at ha
  refine ⟨fun hm => ?_, fun hm => ?_⟩
  · unfold MCPServer.handleRequest MCPServer.handleRequestBody
      MCPServer.handleToolsCall
    simp [hm, hp, hv, pyGet, pyGetD, ha]
  · unfold handleMcpRequest
    simp [hm, hp, hv, pyGet, pyGetD, ha]

/-- C8 witness: `arguments: {message: "hi"}` yields result text
`"Tool echo: hi"` from both dispatchers (request `id = 3`). -/
theorem c8_echo_result_witness :
    MCPServer.handleRequest envNoFiles mcp
      (fieldsOf [("method", .str "tools/call"), ("id", .int 3),
        ("params", .dict (fieldsOf [("name", .str "echo"),
          ("arguments", .dict (fieldsOf [("message", .str "hi")]))]))]) =
      (mkSuccess (.int 3) (toolCallResult "Tool echo: hi"), mcp) ∧
    handleMcpRequest envNoFiles
      (fieldsOf [("method", .str "tools/call"), ("id", .int 3),
        ("params", .dict (fieldsOf [("name", .str "echo"),
          ("arguments", .dict (fieldsOf [("message", .str "hi")]))]))]) =
      .ok (mkSuccess (.int 3) (toolCallResult "Tool echo: hi")) := by
  refine ⟨?_, ?_⟩
  · exact (c8_echo_result envNoFiles mcp
      (fieldsOf [("method", .str "tools/call"), ("id", .int 3),
        ("params", .dict (fieldsOf [("name", .str "echo"),
          ("arguments", .dict (fieldsOf [("message", .str "hi")]))]))])
      (fieldsOf [("message", .str "hi")]) (by rfl) (by rfl)).1 (by decide)
  · exact (c8_echo_result envNoFiles mcp
      (fieldsOf [("method", .str "tools/call"), ("id", .int 3),
        ("params", .dict (fieldsOf [("name", .str "echo"),
          ("arguments", .dict (fieldsOf [("message", .str "hi")]))]))])
      (fieldsOf [("message", .str "hi")]) (by rfl) (by rfl)).2 (by decide)
